import Mathlib

/-!
Verification of the board daemon (`selfdrive/boardd/boardd.cc`).

The daemon's threads are shallowly embedded as pure step functions:
one iteration of a loop body becomes a Lean function from the values the
iteration reads (polled health snapshots, shared atomics, received bytes,
clocks) to the list of board/parameter-store commands it issues together
with the updated local state.  Machine integers are modelled as `Nat`
with explicit wrap-around (`% 2^64`) where the C code relies on unsigned
overflow; `double` quantities that only ever feed comparisons or exact
piecewise-linear formulas are modelled in `ℚ`.
-/

namespace Boardd

/-- Safety models of `cereal::CarParams::SafetyModel` used by boardd.
All remaining vehicle-specific models are collapsed into `other`
(carrying their numeric code), since boardd only ever compares against
`SILENT`/`NO_OUTPUT` and forwards the decoded model opaquely. -/
inductive SafetyModel where
  | SILENT
  | NO_OUTPUT
  | ELM327
  | other (code : Nat)
deriving DecidableEq, Repr

/-- The two board slots: `main_panda` and `aux_panda`. -/
inductive Board where
  | main
  | aux
deriving DecidableEq, Repr

/-- Parameter-store clear tags used on ignition edges. -/
inductive ClearTag where
  | CLEAR_ON_IGNITION_ON
  | CLEAR_ON_IGNITION_OFF
deriving DecidableEq, Repr

/-- Externally visible commands a loop iteration can issue, in program
order.  Message publications / log lines that no claim mentions are not
recorded. -/
inductive Cmd where
  | setSafetyModel (b : Board) (m : SafetyModel) (param : Nat)
  | setUnsafeMode (b : Board) (v : Nat)
  | setPowerSaving (b : Board) (enabled : Bool)
  | clearAll (tag : ClearTag)
  | setRunning (v : Bool)
  | launchSafetySetter
  | setRtc (b : Board)
  | sendHeartbeat (b : Board)
deriving DecidableEq, Repr

/-- The fields of a polled `health_t` snapshot that the board-state loop
branches on (`get_state()`). -/
structure Health where
  ignition_line : Nat
  ignition_can : Nat
  safety_model : SafetyModel
  power_save_enabled : Bool
deriving DecidableEq, Repr

/-- Everything one iteration of the 2 Hz loop body of
`panda_state_thread` (boardd.cc lines 318-461) reads: the polled health
snapshots, the shared atomics and thread-locals as of loop entry, and
the host/RTC clock comparison inputs. `auxHealth = some _` iff
`aux_panda != nullptr`. -/
structure TickInput where
  spoofing_started : Bool
  mainHealth : Health
  auxHealth : Option Health
  /-- value of the shared atomic `ignition` on loop entry -/
  ignition0 : Bool
  ignition_last : Bool
  no_ignition_cnt : Nat
  safety_setter_running : Bool
  main_shift : Nat
  has_rtc : Bool
  /-- `util::time_valid(sys_time)` -/
  sys_time_valid : Bool
  /-- `difftime(mktime(&rtc_time), mktime(&sys_time))`, in seconds -/
  rtc_diff_seconds : ℚ
deriving DecidableEq, Repr

/-- One tick's outcome: commands issued in program order plus the
updated shared/local state. -/
structure TickResult where
  cmds : List Cmd
  ignition : Bool
  no_ignition_cnt : Nat
  ignition_last : Bool
  safety_setter_running : Bool
deriving DecidableEq, Repr

/-- `if (spoofing_started) pandaState.ignition_line = 1;` (line 321). -/
def spoofedMain (inp : TickInput) : Health :=
  if inp.spoofing_started then { inp.mainHealth with ignition_line := 1 }
  else inp.mainHealth

/-- Lines 326-328: coerce a `SILENT` main board to `NO_OUTPUT`. -/
def cmds_silent_main (inp : TickInput) : List Cmd :=
  if (spoofedMain inp).safety_model = SafetyModel.SILENT then
    [Cmd.setSafetyModel Board.main SafetyModel.NO_OUTPUT 0]
  else []

/-- Lines 330-338, commands of the `aux_panda != nullptr` block: coerce
a `SILENT` aux board to `NO_OUTPUT`; also mirror `NO_OUTPUT` onto aux
when the (pre-tick) ignition is off and main's polled model is not
`NO_OUTPUT`. -/
def cmds_aux_block (inp : TickInput) : List Cmd :=
  match inp.auxHealth with
  | none => []
  | some ah =>
      (if ah.safety_model = SafetyModel.SILENT then
        [Cmd.setSafetyModel Board.aux SafetyModel.NO_OUTPUT 0]
      else []) ++
      (if inp.ignition0 = false ∧
          (spoofedMain inp).safety_model ≠ SafetyModel.NO_OUTPUT then
        [Cmd.setSafetyModel Board.aux SafetyModel.NO_OUTPUT 0]
      else [])

/-- Lines 340-344: the shared `ignition` atomic after the tick.  The
derivation is inside the `aux_panda != nullptr` block, so with no aux
board the atomic keeps its previous value. -/
def derivedIgnition (inp : TickInput) : Bool :=
  match inp.auxHealth with
  | none => inp.ignition0
  | some ah =>
      if inp.main_shift = 0 then
        decide ((spoofedMain inp).ignition_line ≠ 0) ||
          decide ((spoofedMain inp).ignition_can ≠ 0)
      else
        decide (ah.ignition_line ≠ 0) || decide (ah.ignition_can ≠ 0)

/-- Lines 347-351: `no_ignition_cnt` after the tick. -/
def newNoIgnitionCnt (inp : TickInput) : Nat :=
  if derivedIgnition inp then 0 else inp.no_ignition_cnt + 1

/-- Lines 354-358: power-save commands when the polled state disagrees
with `!ignition`. -/
def cmds_power_save (inp : TickInput) : List Cmd :=
  if (spoofedMain inp).power_save_enabled ≠ (!derivedIgnition inp) then
    Cmd.setPowerSaving Board.main (!derivedIgnition inp) ::
      (if inp.auxHealth.isSome then
        [Cmd.setPowerSaving Board.aux (!derivedIgnition inp)]
      else [])
  else []

/-- Lines 361-363: force `NO_OUTPUT` on main while the car is off. -/
def cmds_parked_no_output (inp : TickInput) : List Cmd :=
  if derivedIgnition inp = false ∧
      (spoofedMain inp).safety_model ≠ SafetyModel.NO_OUTPUT then
    [Cmd.setSafetyModel Board.main SafetyModel.NO_OUTPUT 0]
  else []

/-- Lines 366-378: ignition-edge handling.  Returns the commands issued
and the value of `safety_setter_thread_running` after the tick. -/
def edgeStep (inp : TickInput) : List Cmd × Bool :=
  if derivedIgnition inp = true ∧ inp.ignition_last = false then
    (Cmd.clearAll ClearTag.CLEAR_ON_IGNITION_ON ::
      (if inp.safety_setter_running = false then
        [Cmd.setRunning true, Cmd.launchSafetySetter]
      else []),
     if inp.safety_setter_running = false then true
     else inp.safety_setter_running)
  else if derivedIgnition inp = false ∧ inp.ignition_last = true then
    ([Cmd.clearAll ClearTag.CLEAR_ON_IGNITION_OFF], inp.safety_setter_running)
  else ([], inp.safety_setter_running)

/-- Lines 380-401: RTC write-back once per minute while parked. -/
def cmds_rtc (inp : TickInput) : List Cmd :=
  if inp.has_rtc = true ∧ derivedIgnition inp = false ∧
      newNoIgnitionCnt inp % 120 = 1 ∧ inp.sys_time_valid = true ∧
      (11 : ℚ) / 10 < |inp.rtc_diff_seconds| then
    [Cmd.setRtc Board.main]
  else []

/-- Lines 459-460: heartbeats to every present board. -/
def cmds_heartbeat (inp : TickInput) : List Cmd :=
  Cmd.sendHeartbeat Board.main ::
    (if inp.auxHealth.isSome then [Cmd.sendHeartbeat Board.aux] else [])

/-- One iteration of the connected 2 Hz loop of `panda_state_thread`
(boardd.cc lines 318-461), assembled in program order. -/
def panda_state_tick (inp : TickInput) : TickResult :=
  { cmds := cmds_silent_main inp ++ cmds_aux_block inp ++
      cmds_power_save inp ++ cmds_parked_no_output inp ++
      (edgeStep inp).1 ++ cmds_rtc inp ++ cmds_heartbeat inp
  , ignition := derivedIgnition inp
  , no_ignition_cnt := newNoIgnitionCnt inp
  , ignition_last := derivedIgnition inp
  , safety_setter_running := (edgeStep inp).2 }

/-! ## CAN send loop (`can_send_thread`, boardd.cc lines 229-269) -/

/-- Unsigned 64-bit subtraction `a - b` as the C expression
`nanos_since_boot() - event.getLogMonoTime()` computes it: the result
wraps modulo `2^64`. -/
def u64_sub (a b : Nat) : Nat :=
  (a % 2 ^ 64 + (2 ^ 64 - b % 2 ^ 64)) % 2 ^ 64

/-- The routing decision of one consumed `sendcan` message
(boardd.cc lines 252-262): `some b` means the batch is sent to board
`b`; `none` means it is consumed without being sent to any board. -/
def can_send_step (fake_send : Bool) (main_shift : Nat)
    (now logMonoTime : Nat) : Option Board :=
  if u64_sub now logMonoTime < 10 ^ 9 then
    if fake_send then none
    else if main_shift = 0 then some Board.main else some Board.aux
  else none

/-! ## Safety-setter task (`safety_setter_thread`, boardd.cc lines 50-109) -/

/-- The environment the safety setter polls: the parameter store's
answers at each successive 100 ms poll, and the (opaque, capnp-decoded)
safety model and param extracted from a `CarParams` blob. -/
structure SetterEnv where
  vin : Nat → String
  controlsReady : Nat → Bool
  carParams : Nat → String
  decode : String → SafetyModel × Nat

/-- The `CarVin` polling loop (lines 59-73) restricted to runs not cut
short by `do_exit` / disconnect, with a fuel bound standing for the
number of polls actually taken: returns the first non-empty value. -/
def poll_vin (env : SetterEnv) : Nat → Nat → Option String
  | 0, _ => none
  | fuel + 1, i =>
      if (env.vin i).length > 0 then some (env.vin i)
      else poll_vin env fuel (i + 1)

/-- The `ControlsReady` / `CarParams` polling loop (lines 81-92):
returns the first `CarParams` value read while `ControlsReady` is true
and the value is non-empty. -/
def poll_params (env : SetterEnv) : Nat → Nat → Option String
  | 0, _ => none
  | fuel + 1, i =>
      if env.controlsReady i = true ∧ (env.carParams i).length > 0 then
        some (env.carParams i)
      else poll_params env fuel (i + 1)

/-- Commands to both boards, main first, aux only when present
(the source's `if (aux_panda != nullptr) { ... }` pattern). -/
def bothBoards (aux_present : Bool) (m : SafetyModel) (param : Nat) :
    List Cmd :=
  Cmd.setSafetyModel Board.main m param ::
    (if aux_present then [Cmd.setSafetyModel Board.aux m param] else [])

/-- A complete run of `safety_setter_thread` (lines 50-109) that is not
cut short by `do_exit` or loss of `main->connected`.  Returns `none`
when a polling loop exceeds its fuel or the `assert(value_vin.size() ==
17)` fires; otherwise `some (trace, running)` with the board commands in
program order and the final value of `safety_setter_thread_running`. -/
def safety_setter_thread (env : SetterEnv) (aux_present : Bool)
    (fuel1 fuel2 : Nat) : Option (List Cmd × Bool) :=
  match poll_vin env fuel1 0 with
  | none => none
  | some value_vin =>
      if value_vin.length = 17 then
        match poll_params env fuel2 0 with
        | none => none
        | some params =>
            some (bothBoards aux_present SafetyModel.ELM327 0 ++
              bothBoards aux_present SafetyModel.ELM327 1 ++
              (Cmd.setUnsafeMode Board.main 0 ::
                bothBoards aux_present (env.decode params).1
                  (env.decode params).2),
              false)
      else none

/-- The command sequence the specification prescribes for a completed
safety-setter run with decoded target `(m, sp)`: `ELM327` to both
boards, `ELM327` param 1 to both boards, unsafe mode 0 on main, then
`(m, sp)` to both boards. -/
def setterSpecTrace (aux_present : Bool) (m : SafetyModel) (sp : Nat) :
    List Cmd :=
  bothBoards aux_present SafetyModel.ELM327 0 ++
    bothBoards aux_present SafetyModel.ELM327 1 ++
    (Cmd.setUnsafeMode Board.main 0 :: bothBoards aux_present m sp)

/-! ## Hardware-control loop IR power (boardd.cc lines 32-35, 507-533) -/

def MAX_IR_POWER : ℚ := 1 / 2
def MIN_IR_POWER : ℚ := 0
def CUTOFF_IL : ℤ := 200
def SATURATE_IL : ℤ := 1600

/-- The piecewise-linear IR power computation of lines 516-522, scaled
by 100, over exact rationals (the C floats here are exact at every
claimed point and rounding is monotone, so the claimed boundary values
and monotonicity are faithfully captured). -/
def ir_pwr_q (cur_integ_lines : ℤ) : ℚ :=
  if cur_integ_lines ≤ CUTOFF_IL then 100 * MIN_IR_POWER
  else if cur_integ_lines > SATURATE_IL then 100 * MAX_IR_POWER
  else 100 * (MIN_IR_POWER +
    ((cur_integ_lines : ℚ) - (CUTOFF_IL : ℚ)) * (MAX_IR_POWER - MIN_IR_POWER) /
      ((SATURATE_IL : ℚ) - (CUTOFF_IL : ℚ)))

/-- The value stored into the `uint16_t ir_pwr` variable: the scaled
power truncated to an integer (all values lie in `[0, 50]`, so
C truncation-toward-zero is the floor). -/
def ir_pwr (cur_integ_lines : ℤ) : ℤ :=
  ⌊ir_pwr_q cur_integ_lines⌋

/-! ## GPS loop (`pigeon_thread`, boardd.cc lines 545-616) -/

/-- Observable actions of one `pigeon_thread` iteration. -/
inductive PAct where
  | init
  | stop
  | setPower (enabled : Bool)
  | publishRaw
  | logTimeout (cls : Nat)
  | logInvalid
deriving DecidableEq, Repr

/-- Thread-local state of `pigeon_thread` carried between iterations:
`ignition_last` and the `last_recv_time` map (unordered_map with
default value 0, modelled as a total function). -/
structure PigeonState where
  ignition_last : Bool
  lastRecv : Nat → Nat

/-- `ublox::PREAMBLE1`, `ublox::PREAMBLE2`, and the two monitored
message classes with their shared 0.9 s timeout. -/
def PREAMBLE1 : Nat := 0xb5
def PREAMBLE2 : Nat := 0x62
def CLASS_NAV : Nat := 0x01
def CLASS_RXM : Nat := 0x02
def cls_max_dt : Nat := 900000000

/-- Lines 562-570: update `last_recv_time` for the class byte at offset
2 when ignition is on and the buffer starts with the ublox preamble. -/
def pigeon_update_recv_time (ignition : Bool) (st : PigeonState)
    (recv : List Nat) (now : Nat) : Nat → Nat :=
  if ignition = true ∧ recv.length ≥ 3 ∧ recv.get? 0 = some PREAMBLE1 ∧
      recv.get? 1 = some PREAMBLE2 then
    fun c => if recv.get? 2 = some c ∧ st.lastRecv c < now then now
             else st.lastRecv c
  else st.lastRecv

/-- Lines 573-580, one entry of the `cls_max_dt` loop: the timeout check
only logs; the reset on this path is commented out in the source. -/
def pigeon_timeout_act (c : Nat) (ignition ign_last : Bool)
    (lastRecv : Nat → Nat) (now : Nat) : List PAct :=
  if ign_last = true ∧ ignition = true ∧
      (now : ℤ) - (lastRecv c : ℤ) > (cls_max_dt : ℤ) then
    [PAct.logTimeout c]
  else []

def pigeon_timeout_acts (ignition ign_last : Bool) (lastRecv : Nat → Nat)
    (now : Nat) : List PAct :=
  pigeon_timeout_act CLASS_NAV ignition ign_last lastRecv now ++
    pigeon_timeout_act CLASS_RXM ignition ign_last lastRecv now

/-- Lines 583-586: `need_reset` is set (not merely logged) when
ignition is on and the received buffer begins with a null byte. -/
def pigeon_need_reset (ignition : Bool) (recv : List Nat) : Bool :=
  ignition && decide (recv.length > 0) && decide (recv.get? 0 = some 0)

/-- One iteration of the `pigeon_thread` loop body (lines 557-612):
`ignition` is the shared atomic as read this iteration, `recv` the
bytes returned by `pigeon->receive()`, `now` the monotonic clock.
Returns the actions in program order and the updated state. -/
def pigeon_step (ignition : Bool) (st : PigeonState) (recv : List Nat)
    (now : Nat) : List PAct × PigeonState :=
  let lastRecv1 := pigeon_update_recv_time ignition st recv now
  let timeoutActs := pigeon_timeout_acts ignition st.ignition_last lastRecv1 now
  let nullActs : List PAct :=
    if pigeon_need_reset ignition recv = true then [PAct.logInvalid] else []
  let pubActs : List PAct := if recv.length > 0 then [PAct.publishRaw] else []
  if (ignition = true ∧ st.ignition_last = false) ∨
      pigeon_need_reset ignition recv = true then
    (timeoutActs ++ nullActs ++ pubActs ++ [PAct.init],
     { ignition_last := ignition,
       lastRecv := fun c =>
         if c = CLASS_NAV ∨ c = CLASS_RXM then now + 10000000000
         else lastRecv1 c })
  else if ignition = false ∧ st.ignition_last = true then
    (timeoutActs ++ nullActs ++ pubActs ++ [PAct.stop, PAct.setPower false],
     { ignition_last := ignition, lastRecv := lastRecv1 })
  else
    (timeoutActs ++ nullActs ++ pubActs,
     { ignition_last := ignition, lastRecv := lastRecv1 })

/-! ## Helper lemmas -/

theorem spoofedMain_safety_model (inp : TickInput) :
    (spoofedMain inp).safety_model = inp.mainHealth.safety_model := by
  unfold spoofedMain; split <;> rfl

/-- The first safety-model command addressed to board `b` in a command
list ("the next command it receives"). -/
def isSafetyCmdTo (b : Board) : Cmd → Bool
  | Cmd.setSafetyModel b' _ _ => b' == b
  | _ => false

def firstSafetyCmdTo (b : Board) (cmds : List Cmd) : Option Cmd :=
  cmds.find? (isSafetyCmdTo b)

/-! ## Claim C1 -/

/-- A tick with no aux board, main bound to bus shift 0, and main's
ignition line high. -/
def c1Input : TickInput :=
  { spoofing_started := false
  , mainHealth :=
      { ignition_line := 1, ignition_can := 0
      , safety_model := SafetyModel.NO_OUTPUT, power_save_enabled := true }
  , auxHealth := none
  , ignition0 := false
  , ignition_last := false
  , no_ignition_cnt := 0
  , safety_setter_running := false
  , main_shift := 0
  , has_rtc := false
  , sys_time_valid := false
  , rtc_diff_seconds := 0 }

/-- C1 counterexample: with no aux board present, a board-state tick
does not update the shared ignition flag from the shift-0 board: main's
ignition line is 1, yet the tick leaves `ignition` false. -/
theorem C1_counterexample :
    c1Input.main_shift = 0 ∧ c1Input.auxHealth = none ∧
    c1Input.mainHealth.ignition_line = 1 ∧
    (panda_state_tick c1Input).ignition ≠
      (decide (c1Input.mainHealth.ignition_line ≠ 0) ||
        decide (c1Input.mainHealth.ignition_can ≠ 0)) := by
  decide

/-- C1 (amended): the ignition derivation sits inside the
`aux_panda != nullptr` block, so `ignition` is recomputed from the
shift-0 board's ignition-line/ignition-CAN bits only on ticks where an
aux board is present; on a tick without an aux board the shared flag
keeps its previous value. -/
theorem C1_ignition_update (inp : TickInput) :
    (inp.auxHealth = none →
      (panda_state_tick inp).ignition = inp.ignition0) ∧
    (∀ ah, inp.auxHealth = some ah →
      (panda_state_tick inp).ignition =
        if inp.main_shift = 0 then
          decide ((spoofedMain inp).ignition_line ≠ 0) ||
            decide ((spoofedMain inp).ignition_can ≠ 0)
        else
          decide (ah.ignition_line ≠ 0) || decide (ah.ignition_can ≠ 0)) := by
  constructor
  · intro h
    simp [panda_state_tick, derivedIgnition, h]
  · intro ah h
    simp [panda_state_tick, derivedIgnition, h]

/-- A tick identical to `c1Input` but with an aux board present. -/
def c1InputAux : TickInput :=
  { c1Input with
      auxHealth := some
        { ignition_line := 0, ignition_can := 0
        , safety_model := SafetyModel.NO_OUTPUT, power_save_enabled := true } }

theorem C1_ignition_update_witness :
    (panda_state_tick c1Input).ignition = c1Input.ignition0 ∧
    (panda_state_tick c1InputAux).ignition =
      if c1InputAux.main_shift = 0 then
        decide ((spoofedMain c1InputAux).ignition_line ≠ 0) ||
          decide ((spoofedMain c1InputAux).ignition_can ≠ 0)
      else
        decide ((0 : Nat) ≠ 0) || decide ((0 : Nat) ≠ 0) :=
  ⟨(C1_ignition_update c1Input).1 rfl,
    (C1_ignition_update c1InputAux).2
      { ignition_line := 0, ignition_can := 0
      , safety_model := SafetyModel.NO_OUTPUT, power_save_enabled := true } rfl⟩

/-! ## Claim C4 -/

/-- C4: on a board-state tick, a board whose polled health reports
safety model `SILENT` has `NO_OUTPUT` as the very next safety-model
command addressed to it — for main and for a present aux alike. -/
theorem C4_silent_coerced (inp : TickInput) :
    (inp.mainHealth.safety_model = SafetyModel.SILENT →
      firstSafetyCmdTo Board.main (panda_state_tick inp).cmds =
        some (Cmd.setSafetyModel Board.main SafetyModel.NO_OUTPUT 0)) ∧
    (∀ ah, inp.auxHealth = some ah →
      ah.safety_model = SafetyModel.SILENT →
      firstSafetyCmdTo Board.aux (panda_state_tick inp).cmds =
        some (Cmd.setSafetyModel Board.aux SafetyModel.NO_OUTPUT 0)) := by
  constructor
  · intro h
    have h1 : cmds_silent_main inp =
        [Cmd.setSafetyModel Board.main SafetyModel.NO_OUTPUT 0] := by
      simp [cmds_silent_main, spoofedMain_safety_model, h]
    simp [panda_state_tick, h1, firstSafetyCmdTo, isSafetyCmdTo]
  · intro ah h hs
    by_cases hm : (spoofedMain inp).safety_model = SafetyModel.SILENT <;>
      simp [panda_state_tick, cmds_silent_main, cmds_aux_block, h, hs, hm,
        firstSafetyCmdTo, isSafetyCmdTo]

/-- A tick on which both boards report `SILENT`. -/
def c4Input : TickInput :=
  { spoofing_started := false
  , mainHealth :=
      { ignition_line := 0, ignition_can := 0
      , safety_model := SafetyModel.SILENT, power_save_enabled := true }
  , auxHealth := some
      { ignition_line := 0, ignition_can := 0
      , safety_model := SafetyModel.SILENT, power_save_enabled := true }
  , ignition0 := false
  , ignition_last := false
  , no_ignition_cnt := 0
  , safety_setter_running := false
  , main_shift := 0
  , has_rtc := false
  , sys_time_valid := false
  , rtc_diff_seconds := 0 }

theorem C4_silent_coerced_witness :
    firstSafetyCmdTo Board.main (panda_state_tick c4Input).cmds =
      some (Cmd.setSafetyModel Board.main SafetyModel.NO_OUTPUT 0) ∧
    firstSafetyCmdTo Board.aux (panda_state_tick c4Input).cmds =
      some (Cmd.setSafetyModel Board.aux SafetyModel.NO_OUTPUT 0) :=
  ⟨(C4_silent_coerced c4Input).1 rfl,
    (C4_silent_coerced c4Input).2
      { ignition_line := 0, ignition_can := 0
      , safety_model := SafetyModel.SILENT, power_save_enabled := true }
      rfl rfl⟩

/-! ## Claim C5 -/

/-- C5: on a tick with (derived) ignition false whose polled main
safety model is not `NO_OUTPUT`, the tick commands `NO_OUTPUT` on main
(lines 361-363). -/
theorem C5_parked_no_output (inp : TickInput)
    (h1 : (panda_state_tick inp).ignition = false)
    (h2 : inp.mainHealth.safety_model ≠ SafetyModel.NO_OUTPUT) :
    Cmd.setSafetyModel Board.main SafetyModel.NO_OUTPUT 0 ∈
      (panda_state_tick inp).cmds := by
  have hd : derivedIgnition inp = false := h1
  have h3 : cmds_parked_no_output inp =
      [Cmd.setSafetyModel Board.main SafetyModel.NO_OUTPUT 0] := by
    simp [cmds_parked_no_output, hd, spoofedMain_safety_model, h2]
  simp [panda_state_tick, h3]

/-- A parked tick whose main board still reports `ELM327`. -/
def c5Input : TickInput :=
  { spoofing_started := false
  , mainHealth :=
      { ignition_line := 0, ignition_can := 0
      , safety_model := SafetyModel.ELM327, power_save_enabled := true }
  , auxHealth := none
  , ignition0 := false
  , ignition_last := false
  , no_ignition_cnt := 5
  , safety_setter_running := false
  , main_shift := 0
  , has_rtc := false
  , sys_time_valid := false
  , rtc_diff_seconds := 0 }

theorem C5_parked_no_output_witness :
    Cmd.setSafetyModel Board.main SafetyModel.NO_OUTPUT 0 ∈
      (panda_state_tick c5Input).cmds :=
  C5_parked_no_output c5Input (by decide) (by decide)

/-! ## Claim C6 -/

theorem sublist_middle {α : Type} (l xs ys : List α) : l.Sublist (xs ++ (l ++ ys)) :=
  (List.sublist_append_left l ys).trans (List.sublist_append_right xs (l ++ ys))

/-- C6: on a rising ignition edge, the `CLEAR_ON_IGNITION_ON`
parameters are cleared before any safety-setter launch; a launch
happens only when `safety_setter_thread_running` is false and the flag
is flipped true before the launch, and after the tick the flag is
true. When the flag is already true, no launch is issued (the clear
still happens). -/
theorem C6_rising_edge (inp : TickInput)
    (h1 : (panda_state_tick inp).ignition = true)
    (h2 : inp.ignition_last = false) :
    (inp.safety_setter_running = false →
      [Cmd.clearAll ClearTag.CLEAR_ON_IGNITION_ON, Cmd.setRunning true,
        Cmd.launchSafetySetter].Sublist (panda_state_tick inp).cmds ∧
      (panda_state_tick inp).safety_setter_running = true) ∧
    (inp.safety_setter_running = true →
      Cmd.launchSafetySetter ∉ (panda_state_tick inp).cmds ∧
      Cmd.clearAll ClearTag.CLEAR_ON_IGNITION_ON ∈ (panda_state_tick inp).cmds) := by
  have hd : derivedIgnition inp = true := h1
  constructor
  · intro h3
    have he1 : (edgeStep inp).1 =
        [Cmd.clearAll ClearTag.CLEAR_ON_IGNITION_ON, Cmd.setRunning true,
          Cmd.launchSafetySetter] := by
      simp [edgeStep, hd, h2, h3]
    have he2 : (edgeStep inp).2 = true := by
      simp [edgeStep, hd, h2, h3]
    refine ⟨?_, he2⟩
    have hre : (panda_state_tick inp).cmds =
        (cmds_silent_main inp ++ cmds_aux_block inp ++ cmds_power_save inp ++
          cmds_parked_no_output inp) ++
        ((edgeStep inp).1 ++ (cmds_rtc inp ++ cmds_heartbeat inp)) := by
      simp [panda_state_tick, List.append_assoc]
    rw [hre, he1]
    exact sublist_middle _ _ _
  · intro h3
    have he : (edgeStep inp).1 = [Cmd.clearAll ClearTag.CLEAR_ON_IGNITION_ON] := by
      simp [edgeStep, hd, h2, h3]
    have n1 : Cmd.launchSafetySetter ∉ cmds_silent_main inp := by
      unfold cmds_silent_main; split <;> simp
    have n2 : Cmd.launchSafetySetter ∉ cmds_aux_block inp := by
      unfold cmds_aux_block
      cases hA : inp.auxHealth with
      | none => simp
      | some ah => split_ifs <;> simp
    have n3 : Cmd.launchSafetySetter ∉ cmds_power_save inp := by
      unfold cmds_power_save; split_ifs <;> simp
    have n4 : Cmd.launchSafetySetter ∉ cmds_parked_no_output inp := by
      unfold cmds_parked_no_output; split <;> simp
    have n6 : Cmd.launchSafetySetter ∉ cmds_rtc inp := by
      unfold cmds_rtc; split <;> simp
    have n7 : Cmd.launchSafetySetter ∉ cmds_heartbeat inp := by
      unfold cmds_heartbeat; split_ifs <;> simp
    constructor
    · simp [panda_state_tick, he, n1, n2, n3, n4, n6, n7]
    · simp [panda_state_tick, he]

/-- A rising-edge tick: aux present, main's ignition line high, last
ignition false, no safety setter running. -/
def c6Input : TickInput :=
  { spoofing_started := false
  , mainHealth :=
      { ignition_line := 1, ignition_can := 0
      , safety_model := SafetyModel.NO_OUTPUT, power_save_enabled := false }
  , auxHealth := some
      { ignition_line := 0, ignition_can := 0
      , safety_model := SafetyModel.NO_OUTPUT, power_save_enabled := false }
  , ignition0 := false
  , ignition_last := false
  , no_ignition_cnt := 7
  , safety_setter_running := false
  , main_shift := 0
  , has_rtc := false
  , sys_time_valid := false
  , rtc_diff_seconds := 0 }

/-- The same rising-edge tick, but a safety setter is already live. -/
def c6InputBusy : TickInput := { c6Input with safety_setter_running := true }

theorem C6_rising_edge_witness :
    ([Cmd.clearAll ClearTag.CLEAR_ON_IGNITION_ON, Cmd.setRunning true,
        Cmd.launchSafetySetter].Sublist (panda_state_tick c6Input).cmds ∧
      (panda_state_tick c6Input).safety_setter_running = true) ∧
    (Cmd.launchSafetySetter ∉ (panda_state_tick c6InputBusy).cmds ∧
      Cmd.clearAll ClearTag.CLEAR_ON_IGNITION_ON ∈
        (panda_state_tick c6InputBusy).cmds) :=
  ⟨(C6_rising_edge c6Input (by decide) rfl).1 rfl,
    (C6_rising_edge c6InputBusy (by decide) rfl).2 rfl⟩

/-! ## Claim C9 -/

/-- On any tick, `setRtc main` is issued exactly when the RTC
write-back block emits it: no other statement of the loop body touches
the RTC. -/
theorem setRtc_mem_tick_iff (inp : TickInput) :
    Cmd.setRtc Board.main ∈ (panda_state_tick inp).cmds ↔
      Cmd.setRtc Board.main ∈ cmds_rtc inp := by
  have n1 : Cmd.setRtc Board.main ∉ cmds_silent_main inp := by
    unfold cmds_silent_main; split <;> simp
  have n2 : Cmd.setRtc Board.main ∉ cmds_aux_block inp := by
    unfold cmds_aux_block
    cases hA : inp.auxHealth with
    | none => simp
    | some ah => split_ifs <;> simp
  have n3 : Cmd.setRtc Board.main ∉ cmds_power_save inp := by
    unfold cmds_power_save; split_ifs <;> simp
  have n4 : Cmd.setRtc Board.main ∉ cmds_parked_no_output inp := by
    unfold cmds_parked_no_output; split <;> simp
  have n5 : Cmd.setRtc Board.main ∉ (edgeStep inp).1 := by
    unfold edgeStep; split_ifs <;> simp
  have n7 : Cmd.setRtc Board.main ∉ cmds_heartbeat inp := by
    unfold cmds_heartbeat; split_ifs <;> simp
  simp [panda_state_tick, n1, n2, n3, n4, n5, n7]

/-- C9: host time is written to the board RTC iff the board supports an
RTC, the derived ignition is off, the (updated) `no_ignition_cnt` is
`≡ 1 (mod 120)`, host time is valid, and the absolute host/RTC
difference exceeds 1.1 s. -/
theorem C9_rtc_write_iff (inp : TickInput) :
    Cmd.setRtc Board.main ∈ (panda_state_tick inp).cmds ↔
      (inp.has_rtc = true ∧ (panda_state_tick inp).ignition = false ∧
        (panda_state_tick inp).no_ignition_cnt % 120 = 1 ∧
        inp.sys_time_valid = true ∧
        (11 : ℚ) / 10 < |inp.rtc_diff_seconds|) := by
  rw [setRtc_mem_tick_iff]
  show Cmd.setRtc Board.main ∈ cmds_rtc inp ↔
    (inp.has_rtc = true ∧ derivedIgnition inp = false ∧
      newNoIgnitionCnt inp % 120 = 1 ∧ inp.sys_time_valid = true ∧
      (11 : ℚ) / 10 < |inp.rtc_diff_seconds|)
  unfold cmds_rtc
  split_ifs with h
  · simp [h]
  · simp [h]

/-! ## Claim C2 -/

/-- C2 counterexample: a message whose log timestamp is exactly one
second old — hence not *older* than 1 s — is nevertheless dropped
(the code keeps a batch only when the difference is strictly below
`1e9` ns), so "otherwise the batch is sent" fails at this input. -/
theorem C2_counterexample :
    ¬ (10 ^ 9 < (10 ^ 9 : Nat) - 0) ∧
    can_send_step false 0 (10 ^ 9) 0 = none := by decide

/-- C2 (amended): for a message whose timestamp is not in the future of
the monotonic clock, the batch is dropped when it is at least 1 s old
(`now - log ≥ 1e9` ns, boundary included), and otherwise — with
fake-send off — it is sent to main exactly when `main_shift = 0`, else
to aux. -/
theorem C2_fresh_routing (fake_send : Bool) (main_shift now log : Nat)
    (hn : now < 2 ^ 64) (hl : log < 2 ^ 64) (hle : log ≤ now) :
    (10 ^ 9 ≤ now - log →
      can_send_step fake_send main_shift now log = none) ∧
    (now - log < 10 ^ 9 → fake_send = false →
      can_send_step fake_send main_shift now log =
        some (if main_shift = 0 then Board.main else Board.aux)) := by
  have hu : u64_sub now log = now - log := by
    unfold u64_sub; omega
  constructor
  · intro h
    unfold can_send_step
    rw [hu, if_neg (by omega)]
  · intro h hf
    subst hf
    unfold can_send_step
    rw [hu, if_pos h]
    simp only [Bool.false_eq_true, if_false]
    split <;> simp [*]

theorem C2_fresh_routing_witness :
    can_send_step false 0 (2 * 10 ^ 9) 0 = none ∧
    can_send_step false 0 (10 ^ 9) 1 = some Board.main := by
  constructor
  · exact (C2_fresh_routing false 0 (2 * 10 ^ 9) 0 (by norm_num) (by norm_num)
      (by norm_num)).1 (by norm_num)
  · have h2 := (C2_fresh_routing false 0 (10 ^ 9) 1 (by norm_num) (by norm_num)
      (by norm_num)).2 (by norm_num) rfl
    rw [if_pos rfl] at h2
    exact h2

/-! ## Claim C10 -/

set_option maxRecDepth 16384 in
/-- C10 counterexample: a future timestamp within `1e9` of the `2^64`
wrap of the clock makes the unsigned difference wrap to a value *below*
`1e9`, and the batch is forwarded — so the wrapped difference is not
always `≥ 1e9` for future timestamps. -/
theorem C10_counterexample :
    (0 : Nat) < 2 ^ 64 - 1 ∧
    u64_sub 0 (2 ^ 64 - 1) < 10 ^ 9 ∧
    can_send_step false 0 0 (2 ^ 64 - 1) = some Board.main := by decide

set_option maxRecDepth 4096 in
/-- C10 (amended): for a future timestamp that does not overshoot the
clock by more than `2^64 - 1e9`, the unsigned 64-bit subtraction wraps
to at least `1e9`, so the batch is dropped regardless of fake-send and
bus-shift configuration. -/
theorem C10_future_drop (now log : Nat) (hn : now < 2 ^ 64)
    (hl : log < 2 ^ 64) (hfut : now < log)
    (hbound : log - now ≤ 2 ^ 64 - 10 ^ 9) :
    10 ^ 9 ≤ u64_sub now log ∧
    ∀ fake_send main_shift,
      can_send_step fake_send main_shift now log = none := by
  have h : 10 ^ 9 ≤ u64_sub now log := by
    unfold u64_sub; omega
  refine ⟨h, fun fake_send main_shift => ?_⟩
  unfold can_send_step
  rw [if_neg (by omega)]

theorem C10_future_drop_witness :
    10 ^ 9 ≤ u64_sub 0 (2 ^ 64 - 10 ^ 9) ∧
    can_send_step true 3 0 (2 ^ 64 - 10 ^ 9) = none :=
  ⟨(C10_future_drop 0 (2 ^ 64 - 10 ^ 9) (by norm_num) (by norm_num)
      (by norm_num) (by norm_num)).1,
    (C10_future_drop 0 (2 ^ 64 - 10 ^ 9) (by norm_num) (by norm_num)
      (by norm_num) (by norm_num)).2 true 3⟩


/-! ## Claim C3 -/

/-- C3: every completed (not cut short) run of the safety setter ends
with `safety_setter_thread_running = false`, found a VIN of length
exactly 17, and issued exactly the command sequence `ELM327` to both
boards, `ELM327` param 1 to both boards, unsafe-mode 0 on main, and
the `(model, param)` decoded from the fetched `CarParams` to both
boards — in that order. -/
theorem C3_setter_sequence (env : SetterEnv) (aux_present : Bool)
    (fuel1 fuel2 : Nat) (out : List Cmd × Bool)
    (h : safety_setter_thread env aux_present fuel1 fuel2 = some out) :
    out.2 = false ∧
    (∃ vin, poll_vin env fuel1 0 = some vin ∧ vin.length = 17) ∧
    ∃ params, poll_params env fuel2 0 = some params ∧
      out.1 = setterSpecTrace aux_present (env.decode params).1
        (env.decode params).2 := by
  unfold safety_setter_thread at h
  split at h
  · exact absurd h (by simp)
  · rename_i vin hv
    split_ifs at h with h17
    · split at h
      · exact absurd h (by simp)
      · rename_i params hp
        have hout := Option.some.inj h
        subst hout
        exact ⟨rfl, ⟨vin, hv, h17⟩, params, hp, rfl⟩

/-- A parameter-store environment in which the VIN, readiness flag and
car params are available from the first poll. -/
def c3Env : SetterEnv :=
  { vin := fun _ => "12345678901234567"
  , controlsReady := fun _ => true
  , carParams := fun _ => "P"
  , decode := fun _ => (SafetyModel.other 15, 0) }

theorem C3_setter_sequence_witness :
    ((setterSpecTrace true (SafetyModel.other 15) 0, false) :
        List Cmd × Bool).2 = false ∧
    (∃ vin, poll_vin c3Env 1 0 = some vin ∧ vin.length = 17) ∧
    ∃ params, poll_params c3Env 1 0 = some params ∧
      ((setterSpecTrace true (SafetyModel.other 15) 0, false) :
          List Cmd × Bool).1 =
        setterSpecTrace true (c3Env.decode params).1 (c3Env.decode params).2 :=
  C3_setter_sequence c3Env true 1 1
    (setterSpecTrace true (SafetyModel.other 15) 0, false) (by decide)

/-! ## Claim C7 -/

def c7State : PigeonState := { ignition_last := true, lastRecv := fun _ => 0 }

/-- C7 counterexample: with ignition on and a received buffer starting
with a null byte (and no rising ignition edge), the iteration both logs
the warning *and* re-initializes the receiver: `pigeon->init()` runs
because `need_reset` is set on this path — the commented-out reset is
the class-timeout path, not this one. -/
theorem C7_counterexample :
    (pigeon_step true c7State [0] 0).1 =
      [PAct.logInvalid, PAct.publishRaw, PAct.init] ∧
    PAct.init ∈ (pigeon_step true c7State [0] 0).1 := by decide

/-- C7 (amended): with ignition on, a buffer beginning with a null byte
makes the iteration log the warning and re-initialize the receiver in
the same iteration; an iteration with no rising ignition edge and no
null-byte `need_reset` never issues `init` (in particular the
class-timeout path only logs). -/
theorem C7_null_byte_reset (ignition : Bool) (st : PigeonState)
    (recv : List Nat) (now : Nat) :
    (ignition = true → recv.get? 0 = some 0 → recv.length > 0 →
      PAct.logInvalid ∈ (pigeon_step ignition st recv now).1 ∧
      PAct.init ∈ (pigeon_step ignition st recv now).1) ∧
    (¬ (ignition = true ∧ st.ignition_last = false) →
      pigeon_need_reset ignition recv = false →
      PAct.init ∉ (pigeon_step ignition st recv now).1) := by
  have tno : ∀ lr, PAct.init ∉
      pigeon_timeout_acts ignition st.ignition_last lr now := by
    intro lr
    unfold pigeon_timeout_acts pigeon_timeout_act
    split_ifs <;> simp
  have pno : PAct.init ∉
      (if recv.length > 0 then [PAct.publishRaw] else ([] : List PAct)) := by
    split <;> simp
  constructor
  · intro hi h0 hlen
    have hr : pigeon_need_reset ignition recv = true := by
      simp [pigeon_need_reset, hi, hlen]
      have h0g : recv[0]? = some 0 := by
        rw [← List.get?_eq_getElem?]; exact h0
      rw [List.getElem?_eq_getElem hlen] at h0g
      exact Option.some.inj h0g
    unfold pigeon_step
    simp [hr, List.mem_append]
  · intro hedge hr
    unfold pigeon_step
    simp only [hr, Bool.false_eq_true, if_false, or_false]
    rw [if_neg hedge]
    split <;> simp [List.mem_append, tno, pno]

theorem C7_null_byte_reset_witness :
    (PAct.logInvalid ∈ (pigeon_step true c7State [0] 5).1 ∧
      PAct.init ∈ (pigeon_step true c7State [0] 5).1) ∧
    PAct.init ∉ (pigeon_step true c7State [PREAMBLE1] 5).1 :=
  ⟨(C7_null_byte_reset true c7State [0] 5).1 rfl rfl (by decide),
    (C7_null_byte_reset true c7State [PREAMBLE1] 5).2 (by simp [c7State])
      (by decide)⟩

/-! ## Claim C8 -/

/-- The exact IR-power curve is `max 0 (min 50 ((n - 200) / 28))`. -/
theorem ir_pwr_q_eq (n : ℤ) :
    ir_pwr_q n = max 0 (min 50 (((n : ℚ) - 200) / 28)) := by
  unfold ir_pwr_q MIN_IR_POWER MAX_IR_POWER CUTOFF_IL SATURATE_IL
  split_ifs with h1 h2
  · have hn : (n : ℚ) ≤ 200 := by exact_mod_cast h1
    have hx : ((n : ℚ) - 200) / 28 ≤ 0 := by
      rw [div_le_iff (show (0 : ℚ) < 28 by norm_num)]
      linarith
    rw [min_eq_right (by linarith), max_eq_left hx]
    ring
  · have hn : (1600 : ℚ) < (n : ℚ) := by exact_mod_cast h2
    have hx : (50 : ℚ) ≤ ((n : ℚ) - 200) / 28 := by
      rw [le_div_iff (show (0 : ℚ) < 28 by norm_num)]
      linarith
    rw [min_eq_left hx, max_eq_right (by norm_num)]
    norm_num
  · have hn1 : (200 : ℚ) < (n : ℚ) := by exact_mod_cast not_le.mp h1
    have hn2 : (n : ℚ) ≤ 1600 := by exact_mod_cast not_lt.mp h2
    have hx0 : (0 : ℚ) ≤ ((n : ℚ) - 200) / 28 := by
      apply div_nonneg _ (by norm_num)
      linarith
    have hx50 : ((n : ℚ) - 200) / 28 ≤ 50 := by
      rw [div_le_iff (show (0 : ℚ) < 28 by norm_num)]
      linarith
    rw [min_eq_right hx50, max_eq_right hx0]
    field_simp
    ring

theorem ir_pwr_q_mono {a b : ℤ} (h : a ≤ b) : ir_pwr_q a ≤ ir_pwr_q b := by
  rw [ir_pwr_q_eq, ir_pwr_q_eq]
  have hq : (a : ℚ) ≤ (b : ℚ) := by exact_mod_cast h
  apply max_le_max le_rfl
  apply min_le_min le_rfl
  gcongr

/-- C8: the IR power is 0 at `integLines = 200`, 50 at 1600, 25 at 900;
strictly between the cutoff and saturation it equals the linear formula
`100 * (0.5 * (integLines - 200) / 1400)`; and it is monotone
non-decreasing on `[CUTOFF_IL, SATURATE_IL]`. -/
theorem C8_ir_power :
    ir_pwr 200 = 0 ∧ ir_pwr 1600 = 50 ∧ ir_pwr 900 = 25 ∧
    (∀ n : ℤ, CUTOFF_IL < n → n ≤ SATURATE_IL →
      ir_pwr_q n = 100 * ((1 / 2) * ((n : ℚ) - 200) / 1400)) ∧
    (∀ a b : ℤ, CUTOFF_IL ≤ a → a ≤ b → b ≤ SATURATE_IL →
      ir_pwr a ≤ ir_pwr b) := by
  refine ⟨?_, ?_, ?_, ?_, ?_⟩
  · norm_num [ir_pwr, ir_pwr_q_eq]
  · norm_num [ir_pwr, ir_pwr_q_eq]
  · norm_num [ir_pwr, ir_pwr_q_eq]
  · intro n h1 h2
    rw [ir_pwr_q_eq]
    unfold CUTOFF_IL at h1
    unfold SATURATE_IL at h2
    have hn1 : (200 : ℚ) < (n : ℚ) := by exact_mod_cast h1
    have hn2 : (n : ℚ) ≤ 1600 := by exact_mod_cast h2
    have hx0 : (0 : ℚ) ≤ ((n : ℚ) - 200) / 28 := by
      apply div_nonneg _ (by norm_num)
      linarith
    have hx50 : ((n : ℚ) - 200) / 28 ≤ 50 := by
      rw [div_le_iff (show (0 : ℚ) < 28 by norm_num)]
      linarith
    rw [min_eq_right hx50, max_eq_right hx0]
    field_simp
    ring
  · intro a b _ hab _
    exact Int.floor_le_floor (ir_pwr_q_mono hab)

theorem C8_ir_power_witness :
    ir_pwr_q 900 = 100 * ((1 / 2) * ((900 : ℚ) - 200) / 1400) ∧
    ir_pwr 300 ≤ ir_pwr 1000 :=
  ⟨C8_ir_power.2.2.2.1 900 (by decide) (by decide),
    C8_ir_power.2.2.2.2 300 1000 (by decide) (by decide) (by decide)⟩

end Boardd
